import Mathlib

/-!
Shallow embedding of zxrs/iq-calc (src/main.rs), a single-window Win32
application: an edit control, a button, and a message box echoing the edit
text. Native calls (WM_GETTEXT, TextOutW, SetFocus, the message pump) are
modelled by their documented contracts as explicit inputs, and each handler
is a pure function from those inputs to its observable effects.
-/

namespace IqCalc

/- ## Constants from src/main.rs -/

def ID_EDIT : Nat := 42

def ID_BUTTON : Nat := 43

/- Win32 message identifiers used by wnd_proc. -/

def WM_CREATE : Nat := 0x0001

def WM_DESTROY : Nat := 0x0002

def WM_PAINT : Nat := 0x000F

def WM_COMMAND : Nat := 0x0111

/- ## UTF-16 decoding (fn decode) -/

/-- UTF-16 decoding of a list of 16-bit code units, following the semantics of
the std decode_utf16 iterator used by fn decode: a non-surrogate unit decodes
to itself, a high surrogate followed by a low surrogate decodes to the combined
supplementary character, and an unpaired surrogate yields an error carrying
that single unit (the unit after an unpaired high surrogate is reprocessed). -/
def decode_utf16 : List Nat → List (Except Nat Char)
  | [] => []
  | [u] =>
    if u < 0xD800 || 0xDFFF < u then [Except.ok (Char.ofNat u)]
    else [Except.error u]
  | u :: u2 :: rest2 =>
    if u < 0xD800 || 0xDFFF < u then
      Except.ok (Char.ofNat u) :: decode_utf16 (u2 :: rest2)
    else if u < 0xDC00 then
      if 0xDC00 ≤ u2 && u2 ≤ 0xDFFF then
        Except.ok (Char.ofNat (0x10000 + (u - 0xD800) * 0x400 + (u2 - 0xDC00)))
          :: decode_utf16 rest2
      else
        Except.error u :: decode_utf16 (u2 :: rest2)
    else
      Except.error u :: decode_utf16 (u2 :: rest2)

/-- unwrap_or(REPLACEMENT_CHARACTER) applied to one decoded item. -/
def unwrap_or_replacement (r : Except Nat Char) : Char :=
  match r with
  | Except.ok c => c
  | Except.error _ => Char.ofNat 0xFFFD

/-- The character sequence produced by fn decode for a unit sequence that has
already been truncated at the first null. -/
def decoded_chars (l : List Nat) : List Char :=
  (decode_utf16 l).map unwrap_or_replacement

/-- fn decode from src/main.rs: truncate at the first null unit
(take_while n != 0), decode as UTF-16, replace each error with U+FFFD. -/
def decode (source : List Nat) : String :=
  String.mk (decoded_chars (source.takeWhile (fun n => n != 0)))

/- ## The WM_GETTEXT capture (fn get_edit_string) -/

/-- Length of the stack buffer in get_edit_string: [0u16; 4]. -/
def BUF_LEN : Nat := 4

/-- The capacity passed as WPARAM to the WM_GETTEXT send in get_edit_string. -/
def GETTEXT_WPARAM : Nat := 8

/-- Number of 16-bit units the control writes for a WM_GETTEXT with capacity
GETTEXT_WPARAM, per the Win32 contract: at most GETTEXT_WPARAM - 1 characters
of the text are copied, followed by one terminating null unit. -/
def gettextUnitsWritten (textLen : Nat) : Nat :=
  min GETTEXT_WPARAM (textLen + 1)

/-- Contents of the four-unit buffer after the WM_GETTEXT send, for an edit
text given as UTF-16 units: the control writes min (GETTEXT_WPARAM - 1) len
characters and a terminating null starting at index 0; only in-bounds cells
are represented here, and cells past the written prefix keep their initial
zero fill. -/
def gettextBuf (text : List Nat) : List Nat :=
  (text.take (GETTEXT_WPARAM - 1) ++ List.replicate BUF_LEN 0).take BUF_LEN

/-- fn get_edit_string from src/main.rs: zero-filled four-unit buffer,
SendMessageW(WM_GETTEXT, 8, buf), then decode(buf). -/
def get_edit_string (text : List Nat) : String :=
  decode (gettextBuf text)

/- ## The command handler (fn command) -/

/-- The three thread-local handle cells (FONT, EDIT, BUTTON). -/
structure AppState where
  font : Nat
  edit : Nat
  button : Nat
deriving DecidableEq, Repr

/-- A modal dialog request: MessageBoxW title and body text. -/
structure Dialog where
  title : String
  body : String
deriving DecidableEq, Repr

/-- Observable effects of one command-handler invocation: the dialog shown (if
any), the handle passed to SetFocus (if called), and whether the handler
returned Ok. -/
structure CommandEffect where
  dialog : Option Dialog
  focusSet : Option Nat
  ok : Bool
deriving DecidableEq, Repr

/-- fn loword from src/main.rs: (l & 0xffff) as u16. -/
def loword (l : Nat) : Nat := l &&& 0xffff

/-- fn command from src/main.rs. `editText` is the edit control's current text
as UTF-16 units; `setFocusOk` is the result of the SetFocus native call.
wparam.0 as u32 is modelled by wparam % 2 ^ 32. -/
def command (state : AppState) (wparam : Nat) (editText : List Nat)
    (setFocusOk : Bool) : CommandEffect :=
  let id := loword (wparam % 2 ^ 32)
  if id = ID_BUTTON then
    let iq := get_edit_string editText
    { dialog := some { title := "結果", body := "あなたの IQ は " ++ iq ++ " です！" },
      focusSet := some state.button,
      ok := setFocusOk }
  else
    { dialog := none, focusSet := none, ok := true }

/- ## The paint handler (fn paint) -/

/-- The native calls fn paint can make, in order of appearance. -/
inductive PaintCall
  | beginPaint
  | selectObject
  | setBkMode
  | textOut1
  | textOut2
  | endPaint
deriving DecidableEq, Repr

/-- Observable outcome of one paint-handler invocation: the sequence of native
calls made, and whether the handler returned Ok. -/
structure PaintEffect where
  calls : List PaintCall
  ok : Bool
deriving DecidableEq, Repr

/-- fn paint from src/main.rs: BeginPaint, SelectObject, SetBkMode, then
TextOutW (line 1), TextOutW (line 2) and EndPaint; each of the last three is
followed by .ok()?, so the first failure returns the error immediately,
skipping the remaining calls. t1, t2, ep are the results of the two TextOutW
calls and of EndPaint. -/
def paint (t1 t2 ep : Bool) : PaintEffect :=
  if !t1 then
    { calls := [.beginPaint, .selectObject, .setBkMode, .textOut1], ok := false }
  else if !t2 then
    { calls := [.beginPaint, .selectObject, .setBkMode, .textOut1, .textOut2],
      ok := false }
  else
    { calls := [.beginPaint, .selectObject, .setBkMode, .textOut1, .textOut2,
                .endPaint],
      ok := ep }

/- ## Window-creation (fn create, create_font, create_edit, create_button) -/

/-- Results of the native calls made during fn create: the CreateFontW handle
(0 models a null handle), the two CreateWindowExW results (none = failure),
and the SetFocus call on the fresh edit control. -/
structure CreateEnv where
  fontHandle : Nat
  editHandle : Option Nat
  buttonHandle : Option Nat
  editFocusOk : Bool
deriving DecidableEq, Repr

/-- fn create from src/main.rs: create_font stores the font handle
unconditionally; create_edit stores the edit handle, applies the font and sets
focus, propagating failure of CreateWindowExW or SetFocus with ?; then
create_button stores the button handle likewise. Returns the updated handle
cells and whether create returned Ok. -/
def create (env : CreateEnv) (s : AppState) : AppState × Bool :=
  let s1 : AppState := { s with font := env.fontHandle }
  match env.editHandle with
  | none => (s1, false)
  | some e =>
    let s2 : AppState := { s1 with edit := e }
    if !env.editFocusOk then (s2, false)
    else
      match env.buttonHandle with
      | none => (s2, false)
      | some b => ({ s2 with button := b }, true)

/- ## The window procedure (fn wnd_proc) -/

/-- Results of every native call a single wnd_proc dispatch may perform, plus
the edit control's current text and the result DefWindowProcW would return. -/
structure Env where
  createEnv : CreateEnv
  textOut1Ok : Bool
  textOut2Ok : Bool
  endPaintOk : Bool
  editText : List Nat
  setFocusOk : Bool
  defResult : Int
deriving DecidableEq, Repr

/-- Observable effects of one wnd_proc dispatch. -/
structure WndEffect where
  state : AppState
  result : Int
  dialog : Option Dialog
  quitPosted : Bool
  defCalled : Bool
  paintCalls : List PaintCall
  focusSet : Option Nat
deriving DecidableEq, Repr

/-- fn wnd_proc from src/main.rs: WM_CREATE runs create(hwnd).ok(), WM_PAINT
runs paint(hwnd).ok(), WM_COMMAND runs command(hwnd, wparam).ok(), WM_DESTROY
posts the quit message; each handled arm falls through to LRESULT::default()
(zero), discarding any handler error; every other message returns
DefWindowProcW's result immediately. -/
def wnd_proc (env : Env) (s : AppState) (msg : Nat) (wparam : Nat) : WndEffect :=
  if msg = WM_CREATE then
    let r := create env.createEnv s
    { state := r.1, result := 0, dialog := none, quitPosted := false,
      defCalled := false, paintCalls := [],
      focusSet := env.createEnv.editHandle }
  else if msg = WM_PAINT then
    let r := paint env.textOut1Ok env.textOut2Ok env.endPaintOk
    { state := s, result := 0, dialog := none, quitPosted := false,
      defCalled := false, paintCalls := r.calls, focusSet := none }
  else if msg = WM_COMMAND then
    let r := command s wparam env.editText env.setFocusOk
    { state := s, result := 0, dialog := r.dialog, quitPosted := false,
      defCalled := false, paintCalls := [], focusSet := r.focusSet }
  else if msg = WM_DESTROY then
    { state := s, result := 0, dialog := none, quitPosted := true,
      defCalled := false, paintCalls := [], focusSet := none }
  else
    { state := s, result := env.defResult, dialog := none, quitPosted := false,
      defCalled := true, paintCalls := [], focusSet := none }

/- ## The message loop (fn main) -/

/-- One message retrieved by GetMessageW: either the posted WM_QUIT (on which
GetMessageW returns false) or an ordinary message carrying whether
IsDialogMessageW consumes it and its identifier and wparam. -/
inductive LoopMsg
  | quit
  | msg (isDialogMsg : Bool) (m : Nat) (wparam : Nat)
deriving DecidableEq, Repr

/-- The retrieve/dispatch loop of fn main over a queue of messages: GetMessageW
returning false on WM_QUIT breaks the loop; otherwise the message is
translated and dispatched to wnd_proc unless IsDialogMessageW consumed it.
Returns some (list of dispatched (identifier, wparam) pairs) when the loop
terminates via WM_QUIT, and none when the queue is exhausted with the loop
still blocked in GetMessageW. -/
def message_loop : List LoopMsg → Option (List (Nat × Nat))
  | [] => none
  | .quit :: _ => some []
  | .msg d m w :: rest =>
    (message_loop rest).map (fun l => if d then l else (m, w) :: l)

/-- Results of the native calls in fn main before the loop: LoadCursorW and
CreateWindowExW, each propagated with ? (RegisterClassW's and ShowWindow's
results are ignored by the source), plus the queue of retrieved messages. -/
structure MainEnv where
  loadCursorOk : Bool
  createWindowOk : Bool
  msgs : List LoopMsg
deriving DecidableEq, Repr

/-- fn main from src/main.rs: some true = process exits with the success code
(main returned Ok), some false = a ? propagated a setup failure and the
process exits with a failing code, none = the message loop never terminates. -/
def main (e : MainEnv) : Option Bool :=
  if !e.loadCursorOk then some false
  else if !e.createWindowOk then some false
  else
    match message_loop e.msgs with
    | some _ => some true
    | none => none

/-- The dispatched (identifier, wparam) pairs of a message-queue prefix,
used to describe message_loop's output. -/
def dispatched : List LoopMsg → List (Nat × Nat)
  | [] => []
  | .quit :: rest => dispatched rest
  | .msg d m w :: rest =>
    if d then dispatched rest else (m, w) :: dispatched rest

/- ## Reference definitions used to state properties -/

/-- Whether a unit sequence begins with a low surrogate (the case in which a
preceding high surrogate forms a valid pair). -/
def starts_with_low_surrogate : List Nat → Bool
  | [] => false
  | u :: _ => 0xDC00 ≤ u && u ≤ 0xDFFF

/-- Standard UTF-16 encoding of one character: one unit for a basic-plane
scalar, a high/low surrogate pair for a supplementary one. Reference
definition used to state faithfulness of decode on valid unit sequences. -/
def utf16_encode_char (c : Char) : List Nat :=
  if c.toNat < 0x10000 then [c.toNat]
  else [0xD800 + (c.toNat - 0x10000) / 0x400, 0xDC00 + (c.toNat - 0x10000) % 0x400]

/-- Standard UTF-16 encoding of a character sequence. -/
def utf16_encode (cs : List Char) : List Nat :=
  (cs.map utf16_encode_char).flatten

/-- A concrete environment used to instantiate theorems. -/
def sampleEnv : Env :=
  { createEnv := { fontHandle := 5, editHandle := some 6, buttonHandle := some 7,
                   editFocusOk := true },
    textOut1Ok := true, textOut2Ok := true, endPaintOk := true,
    editText := [0x31, 0x32, 0x30], setFocusOk := true, defResult := 7 }

/-- A concrete handle state used to instantiate theorems. -/
def sampleState : AppState := { font := 1, edit := 2, button := 3 }

/- ## Helper lemmas: UTF-16 decoding -/

lemma decode_utf16_nonsurrogate (u : Nat) (l : List Nat)
    (h : u < 0xD800 ∨ 0xDFFF < u) :
    decode_utf16 (u :: l) = Except.ok (Char.ofNat u) :: decode_utf16 l := by
  rcases l with _ | ⟨u2, l2⟩ <;> rcases h with h | h <;> simp [decode_utf16, h]

lemma decode_utf16_low (u : Nat) (l : List Nat)
    (h1 : 0xDC00 ≤ u) (h2 : u ≤ 0xDFFF) :
    decode_utf16 (u :: l) = Except.error u :: decode_utf16 l := by
  have hA : ¬ u < 0xD800 := by omega
  have hB : ¬ 0xDFFF < u := by omega
  have hC : ¬ u < 0xDC00 := by omega
  rcases l with _ | ⟨u2, l2⟩ <;> simp [decode_utf16, hA, hB, hC]

lemma decode_utf16_high_unpaired (u : Nat) (l : List Nat)
    (h1 : 0xD800 ≤ u) (h2 : u < 0xDC00)
    (h3 : starts_with_low_surrogate l = false) :
    decode_utf16 (u :: l) = Except.error u :: decode_utf16 l := by
  have hA : ¬ u < 0xD800 := by omega
  have hB : ¬ 0xDFFF < u := by omega
  rcases l with _ | ⟨u2, l2⟩
  · simp [decode_utf16, hA, hB, h2]
  · simp [starts_with_low_surrogate] at h3
    simp [decode_utf16, hA, hB, h2]
    omega

lemma decode_utf16_pair (u u2 : Nat) (l : List Nat)
    (h1 : 0xD800 ≤ u) (h2 : u < 0xDC00) (h3 : 0xDC00 ≤ u2) (h4 : u2 ≤ 0xDFFF) :
    decode_utf16 (u :: u2 :: l) =
      Except.ok (Char.ofNat (0x10000 + (u - 0xD800) * 0x400 + (u2 - 0xDC00)))
        :: decode_utf16 l := by
  have hA : ¬ u < 0xD800 := by omega
  have hB : ¬ 0xDFFF < u := by omega
  simp [decode_utf16, hA, hB, h2, h3, h4]

lemma char_toNat_valid (c : Char) :
    c.toNat < 0xD800 ∨ (0xDFFF < c.toNat ∧ c.toNat < 0x110000) := c.valid

lemma decode_utf16_encode_char (c : Char) (l : List Nat) :
    decode_utf16 (utf16_encode_char c ++ l) = Except.ok c :: decode_utf16 l := by
  have hv := char_toNat_valid c
  by_cases hb : c.toNat < 0x10000
  · have h : c.toNat < 0xD800 ∨ 0xDFFF < c.toNat := by omega
    rw [utf16_encode_char, if_pos hb, List.cons_append, List.nil_append,
        decode_utf16_nonsurrogate _ _ h, Char.ofNat_toNat]
  · have h1 : 0x10000 ≤ c.toNat := Nat.not_lt.mp hb
    have h2 : c.toNat < 0x110000 := by omega
    have hq : (c.toNat - 0x10000) / 0x400 < 0x400 := by
      apply Nat.div_lt_of_lt_mul
      omega
    have hr : (c.toNat - 0x10000) % 0x400 < 0x400 := Nat.mod_lt _ (by omega)
    rw [utf16_encode_char, if_neg hb]
    rw [List.cons_append, List.cons_append, List.nil_append]
    rw [decode_utf16_pair _ _ _ (by omega) (by omega) (by omega) (by omega)]
    have harith : 0x10000 + (0xD800 + (c.toNat - 0x10000) / 0x400 - 0xD800) * 0x400
        + (0xDC00 + (c.toNat - 0x10000) % 0x400 - 0xDC00) = c.toNat := by
      have hdm := Nat.div_add_mod (c.toNat - 0x10000) 0x400
      omega
    rw [harith, Char.ofNat_toNat]

lemma decode_utf16_encode (cs : List Char) :
    decode_utf16 (utf16_encode cs) = cs.map Except.ok := by
  induction cs with
  | nil => rfl
  | cons c t ih =>
    have hstep : utf16_encode (c :: t) = utf16_encode_char c ++ utf16_encode t := by
      simp [utf16_encode]
    rw [hstep, decode_utf16_encode_char, ih, List.map_cons]

lemma decoded_chars_encode (cs : List Char) :
    decoded_chars (utf16_encode cs) = cs := by
  have hfun : unwrap_or_replacement ∘ Except.ok = (id : Char → Char) := by
    funext c
    rfl
  rw [decoded_chars, decode_utf16_encode, List.map_map, hfun, List.map_id]

lemma utf16_encode_units_ne_zero (cs : List Char) (h : ∀ c ∈ cs, c.toNat ≠ 0) :
    ∀ u ∈ utf16_encode cs, (u != 0) = true := by
  intro u hu
  rw [utf16_encode] at hu
  rcases List.mem_flatten.mp hu with ⟨s, hs, hus⟩
  rcases List.mem_map.mp hs with ⟨c, hc, rfl⟩
  have hcne := h c hc
  have hune : u ≠ 0 := by
    obtain ⟨n, hn⟩ : ∃ n : Nat, c.toNat = n := ⟨c.toNat, rfl⟩
    rw [utf16_encode_char, hn] at hus
    rw [hn] at hcne
    by_cases hb : n < 0x10000
    · rw [if_pos hb] at hus
      simp at hus
      omega
    · rw [if_neg hb] at hus
      simp at hus
      rcases hus with h | h <;> omega
  simpa using hune

lemma takeWhile_utf16_encode (cs : List Char) (h : ∀ c ∈ cs, c.toNat ≠ 0) :
    (utf16_encode cs).takeWhile (fun n => n != 0) = utf16_encode cs := by
  conv_lhs => rw [← List.append_nil (utf16_encode cs)]
  rw [List.takeWhile_append_of_pos (utf16_encode_units_ne_zero cs h)]
  simp

lemma decode_encode (cs : List Char) (h : ∀ c ∈ cs, c.toNat ≠ 0) :
    decode (utf16_encode cs) = String.mk cs := by
  rw [decode, takeWhile_utf16_encode cs h, decoded_chars_encode]

lemma decoded_chars_high_unpaired (u : Nat) (l : List Nat)
    (h1 : 0xD800 ≤ u) (h2 : u < 0xDC00)
    (h3 : starts_with_low_surrogate l = false) :
    decoded_chars (u :: l) = Char.ofNat 0xFFFD :: decoded_chars l := by
  rw [decoded_chars, decode_utf16_high_unpaired u l h1 h2 h3, List.map_cons]
  rfl

lemma decoded_chars_low (u : Nat) (l : List Nat)
    (h1 : 0xDC00 ≤ u) (h2 : u ≤ 0xDFFF) :
    decoded_chars (u :: l) = Char.ofNat 0xFFFD :: decoded_chars l := by
  rw [decoded_chars, decode_utf16_low u l h1 h2, List.map_cons]
  rfl

lemma decode_utf16_all_bmp (l : List Nat) (h : ∀ u ∈ l, u < 0xD800) :
    decode_utf16 l = l.map (fun u => Except.ok (Char.ofNat u)) := by
  induction l with
  | nil => rfl
  | cons u t ih =>
    rw [decode_utf16_nonsurrogate u t (Or.inl (h u (by simp)))]
    rw [ih (fun v hv => h v (by simp [hv])), List.map_cons]

/- ## Helper lemmas: capture buffer, command handler, message loop -/

lemma get_edit_string_short (text : List Nat) (hlen : text.length ≤ 3)
    (hns : ∀ u ∈ text, u ≠ 0 ∧ u < 0xD800) :
    get_edit_string text = String.mk (text.map Char.ofNat) := by
  simp only [get_edit_string, gettextBuf, GETTEXT_WPARAM, BUF_LEN]
  have h7 : text.take (8 - 1) = text := List.take_of_length_le (by omega)
  have h4 : text.take 4 = text := List.take_of_length_le (by omega)
  rw [h7, List.take_append_eq_append_take, h4, List.take_replicate, decode,
      List.takeWhile_append_of_pos (by
        intro a ha
        simpa using (hns a ha).1)]
  have hmin : min (4 - text.length) 4 = 4 - text.length := by omega
  rw [hmin]
  have hz : (List.replicate (4 - text.length) (0 : Nat)).takeWhile
      (fun n => n != 0) = [] := by
    have h4 : 4 - text.length = (4 - text.length - 1) + 1 := by omega
    rw [h4, List.replicate_succ]
    simp
  rw [hz, List.append_nil, decoded_chars,
      decode_utf16_all_bmp text (fun u hu => (hns u hu).2), List.map_map]
  have hfun : unwrap_or_replacement ∘ (fun u => Except.ok (Char.ofNat u)) =
      fun u : Nat => Char.ofNat u := by
    funext u
    rfl
  rw [hfun]

lemma command_eq_of_id (s : AppState) (wparam : Nat) (text : List Nat) (f : Bool)
    (h : loword (wparam % 2 ^ 32) = ID_BUTTON) :
    command s wparam text f =
      { dialog :=
          some { title := "結果"
                 body := "あなたの IQ は " ++ get_edit_string text ++ " です！" },
        focusSet := some s.button, ok := f } := by
  simp only [command]
  rw [if_pos h]

lemma command_eq_of_ne (s : AppState) (wparam : Nat) (text : List Nat) (f : Bool)
    (h : loword (wparam % 2 ^ 32) ≠ ID_BUTTON) :
    command s wparam text f = { dialog := none, focusSet := none, ok := true } := by
  simp only [command]
  rw [if_neg h]

lemma loword_eq_mod (l : Nat) : loword l = l % 2 ^ 16 := by
  have h : (0xffff : Nat) = 2 ^ 16 - 1 := by norm_num
  rw [loword, h, Nat.and_pow_two_sub_one_eq_mod]

lemma loword_u32 (w : Nat) : loword (w % 2 ^ 32) = w % 2 ^ 16 := by
  rw [loword_eq_mod, Nat.mod_mod_of_dvd]
  exact pow_dvd_pow 2 (by omega)

lemma message_loop_isSome_append_quit (prior rest : List LoopMsg) :
    (message_loop (prior ++ LoopMsg.quit :: rest)).isSome = true := by
  induction prior with
  | nil => rfl
  | cons m t ih =>
    cases m with
    | quit => rfl
    | msg d mm w => simpa [message_loop] using ih

lemma quit_mem_of_message_loop_isSome (msgs : List LoopMsg)
    (h : (message_loop msgs).isSome = true) : LoopMsg.quit ∈ msgs := by
  induction msgs with
  | nil => simp [message_loop] at h
  | cons m t ih =>
    cases m with
    | quit => exact List.mem_cons_self _ _
    | msg d mm w =>
      simp only [message_loop, Option.isSome_map'] at h
      exact List.mem_cons_of_mem _ (ih h)

lemma message_loop_isSome_of_mem (msgs : List LoopMsg)
    (h : LoopMsg.quit ∈ msgs) : (message_loop msgs).isSome = true := by
  induction msgs with
  | nil => simp at h
  | cons m t ih =>
    cases m with
    | quit => rfl
    | msg d mm w =>
      have ht : LoopMsg.quit ∈ t := by
        rcases List.mem_cons.mp h with h1 | h2
        · exact absurd h1 (by simp)
        · exact h2
      simp only [message_loop, Option.isSome_map']
      exact ih ht

/- ## Claim theorems -/

/-- C1: for every edit-control text of at most 3 numeric characters (including
the empty text), activating the button makes the command handler display a
modal dialog whose body is exactly that text substituted into the template
"あなたの IQ は ... です！"; in particular "120" yields
"あなたの IQ は 120 です！" and the empty text yields "あなたの IQ は  です！". -/
theorem c1_button_dialog_text (s : AppState) (text : List Nat) (f : Bool)
    (hlen : text.length ≤ 3)
    (hdig : ∀ u ∈ text, 0x30 ≤ u ∧ u ≤ 0x39) :
    (command s 43 text f).dialog =
      some { title := "結果"
             body := "あなたの IQ は " ++ String.mk (text.map Char.ofNat) ++ " です！" } ∧
    (command s 43 [0x31, 0x32, 0x30] f).dialog =
      some { title := "結果", body := "あなたの IQ は 120 です！" } ∧
    (command s 43 [] f).dialog =
      some { title := "結果", body := "あなたの IQ は  です！" } := by
  refine ⟨?_, ?_, ?_⟩
  · rw [command_eq_of_id s 43 text f (by decide),
      get_edit_string_short text hlen (fun u hu => by
        have h := hdig u hu
        exact ⟨by omega, by omega⟩)]
  · rw [command_eq_of_id s 43 [0x31, 0x32, 0x30] f (by decide)]
    rfl
  · rw [command_eq_of_id s 43 [] f (by decide)]
    rfl

/-- Witness for c1_button_dialog_text at the input "120". -/
theorem c1_button_dialog_text_witness :
    (command sampleState 43 [0x31, 0x32, 0x30] true).dialog =
      some { title := "結果", body := "あなたの IQ は 120 です！" } :=
  (c1_button_dialog_text sampleState [0x31, 0x32, 0x30] true
    (by decide) (by decide)).2.1

/-- C2 (code bug): the source declares a four-unit capture buffer but passes
capacity 8 (code units) to the WM_GETTEXT send, so for a five-character text
such as "12345" the control writes min 8 (5 + 1) = 6 units — two past the
buffer — instead of truncating at the four-unit buffer boundary; the decode
step itself still reads only the four in-bounds units. -/
theorem c2_gettext_capacity_bug :
    GETTEXT_WPARAM = 8 ∧ BUF_LEN = 4 ∧
    gettextUnitsWritten 5 = 6 ∧
    BUF_LEN < gettextUnitsWritten 5 ∧
    get_edit_string [0x31, 0x32, 0x33, 0x34, 0x35] = "1234" := by
  refine ⟨rfl, rfl, rfl, by decide, ?_⟩
  decide

/-- C3 counterexample: when the first TextOutW fails, paint propagates the
error without ever calling EndPaint, so the device context acquired by
BeginPaint is not released on that exit path. -/
theorem c3_paint_counterexample :
    (paint false true true).calls.count PaintCall.endPaint = 0 ∧
    (paint false true true).calls.count PaintCall.beginPaint = 1 ∧
    (paint false true true).ok = false := by decide

/-- C3 (amended): the device context is released exactly once on every
invocation in which both text draws succeed (including when EndPaint itself
reports failure, where the release call is still made); if either draw fails,
paint returns the error without releasing the device context. -/
theorem c3_paint_release_amended (t1 t2 ep : Bool) :
    (paint t1 t2 ep).calls.count PaintCall.beginPaint = 1 ∧
    ((paint t1 t2 ep).calls.count PaintCall.endPaint =
      if t1 && t2 then 1 else 0) ∧
    (paint t1 t2 ep).ok = (t1 && t2 && ep) := by
  cases t1 <;> cases t2 <;> cases ep <;> decide

/-- C4: decoding the captured units is faithful on every valid UTF-16 unit
sequence (stated via the standard encoding of an arbitrary character sequence
without nulls), and each unpaired surrogate — a high surrogate not followed by
a low surrogate, or a lone low surrogate — produces exactly one replacement
character U+FFFD while the rest of the sequence is decoded unchanged; decode
is a total function by construction, so it never fails or aborts. -/
theorem c4_decode_total_replacement :
    (∀ cs : List Char, (∀ c ∈ cs, c.toNat ≠ 0) →
      decode (utf16_encode cs) = String.mk cs) ∧
    (∀ u : Nat, ∀ l : List Nat, 0xD800 ≤ u → u < 0xDC00 →
      starts_with_low_surrogate l = false →
      decoded_chars (u :: l) = Char.ofNat 0xFFFD :: decoded_chars l) ∧
    (∀ u : Nat, ∀ l : List Nat, 0xDC00 ≤ u → u ≤ 0xDFFF →
      decoded_chars (u :: l) = Char.ofNat 0xFFFD :: decoded_chars l) :=
  ⟨decode_encode, decoded_chars_high_unpaired, decoded_chars_low⟩

/-- Witness for c4_decode_total_replacement: faithful decoding of "120" and
one replacement character for an unpaired high and a lone low surrogate. -/
theorem c4_decode_total_replacement_witness :
    decode (utf16_encode [Char.ofNat 0x31, Char.ofNat 0x32, Char.ofNat 0x30]) =
      String.mk [Char.ofNat 0x31, Char.ofNat 0x32, Char.ofNat 0x30] ∧
    decoded_chars [0xD800, 0x31] = Char.ofNat 0xFFFD :: decoded_chars [0x31] ∧
    decoded_chars [0xDC00] = Char.ofNat 0xFFFD :: decoded_chars [] :=
  ⟨c4_decode_total_replacement.1 [Char.ofNat 0x31, Char.ofNat 0x32, Char.ofNat 0x30]
      (by decide),
   c4_decode_total_replacement.2.1 0xD800 [0x31] (by decide) (by decide) (by decide),
   c4_decode_total_replacement.2.2 0xDC00 [] (by decide) (by decide)⟩

/-- C5: a command event whose low word differs from the button identifier 43
shows no dialog, calls SetFocus on nothing, returns Ok, and the dispatch
leaves the stored handles unchanged. -/
theorem c5_non_button_noop (env : Env) (s : AppState) (wparam : Nat)
    (h : loword (wparam % 2 ^ 32) ≠ ID_BUTTON) :
    command s wparam env.editText env.setFocusOk =
      { dialog := none, focusSet := none, ok := true } ∧
    (wnd_proc env s WM_COMMAND wparam).state = s ∧
    (wnd_proc env s WM_COMMAND wparam).dialog = none ∧
    (wnd_proc env s WM_COMMAND wparam).focusSet = none := by
  have hc := command_eq_of_ne s wparam env.editText env.setFocusOk h
  refine ⟨hc, ?_, ?_, ?_⟩ <;>
    simp [wnd_proc, WM_CREATE, WM_PAINT, WM_COMMAND, WM_DESTROY, hc]

/-- Witness for c5_non_button_noop at the edit control identifier 42. -/
theorem c5_non_button_noop_witness :
    command sampleState 42 sampleEnv.editText sampleEnv.setFocusOk =
      { dialog := none, focusSet := none, ok := true } :=
  (c5_non_button_noop sampleEnv sampleState 42 (by decide)).1

/-- C6: a window-destroy dispatch posts the quit signal; the message loop
terminates whenever a quit message is in the queue, whatever sequence of
messages precedes or follows it; and the loop terminates only by retrieving a
quit message. -/
theorem c6_destroy_terminates (env : Env) (s : AppState) (w : Nat) :
    (wnd_proc env s WM_DESTROY w).quitPosted = true ∧
    (∀ prior rest : List LoopMsg,
      (message_loop (prior ++ LoopMsg.quit :: rest)).isSome = true) ∧
    (∀ msgs : List LoopMsg,
      (message_loop msgs).isSome = true → LoopMsg.quit ∈ msgs) := by
  refine ⟨?_, message_loop_isSome_append_quit, quit_mem_of_message_loop_isSome⟩
  simp [wnd_proc, WM_CREATE, WM_PAINT, WM_COMMAND, WM_DESTROY]

/-- Witness for c6_destroy_terminates on a concrete queue. -/
theorem c6_destroy_terminates_witness :
    (wnd_proc sampleEnv sampleState WM_DESTROY 0).quitPosted = true ∧
    (message_loop ([LoopMsg.msg false 15 0] ++
      LoopMsg.quit :: [LoopMsg.msg false 2 0])).isSome = true ∧
    LoopMsg.quit ∈ [LoopMsg.quit] :=
  ⟨(c6_destroy_terminates sampleEnv sampleState 0).1,
   (c6_destroy_terminates sampleEnv sampleState 0).2.1
      [LoopMsg.msg false 15 0] [LoopMsg.msg false 2 0],
   (c6_destroy_terminates sampleEnv sampleState 0).2.2 [LoopMsg.quit] (by decide)⟩

/-- C7: every message other than WM_CREATE, WM_PAINT, WM_COMMAND and
WM_DESTROY is delegated to DefWindowProcW, whose result is returned
immediately, with no change to the stored handles and no other effect. -/
theorem c7_default_delegation (env : Env) (s : AppState) (msg wparam : Nat)
    (h1 : msg ≠ WM_CREATE) (h2 : msg ≠ WM_PAINT) (h3 : msg ≠ WM_COMMAND)
    (h4 : msg ≠ WM_DESTROY) :
    wnd_proc env s msg wparam =
      { state := s, result := env.defResult, dialog := none,
        quitPosted := false, defCalled := true, paintCalls := [],
        focusSet := none } := by
  simp [wnd_proc, h1, h2, h3, h4]

/-- Witness for c7_default_delegation at WM_CLOSE (16). -/
theorem c7_default_delegation_witness :
    wnd_proc sampleEnv sampleState 16 0 =
      { state := sampleState, result := sampleEnv.defResult, dialog := none,
        quitPosted := false, defCalled := true, paintCalls := [],
        focusSet := none } :=
  c7_default_delegation sampleEnv sampleState 16 0
    (by decide) (by decide) (by decide) (by decide)

/-- C8: the creation, paint and command handlers each return a recoverable
result, and for each of the three corresponding message kinds the dispatcher
discards any error uniformly — it performs exactly the handler's own effects,
makes no default-handler call, and returns the zero result regardless of the
handler's success flag. -/
theorem c8_errors_swallowed (env : Env) (s : AppState) (w : Nat) :
    ((wnd_proc env s WM_CREATE w).result = 0 ∧
      (wnd_proc env s WM_CREATE w).defCalled = false ∧
      (wnd_proc env s WM_CREATE w).state = (create env.createEnv s).1) ∧
    ((wnd_proc env s WM_PAINT w).result = 0 ∧
      (wnd_proc env s WM_PAINT w).defCalled = false ∧
      (wnd_proc env s WM_PAINT w).paintCalls =
        (paint env.textOut1Ok env.textOut2Ok env.endPaintOk).calls) ∧
    ((wnd_proc env s WM_COMMAND w).result = 0 ∧
      (wnd_proc env s WM_COMMAND w).defCalled = false ∧
      (wnd_proc env s WM_COMMAND w).dialog =
        (command s w env.editText env.setFocusOk).dialog) := by
  refine ⟨⟨?_, ?_, ?_⟩, ⟨?_, ?_, ?_⟩, ⟨?_, ?_, ?_⟩⟩ <;>
    simp [wnd_proc, WM_CREATE, WM_PAINT, WM_COMMAND, WM_DESTROY]

/-- C9 counterexample: when the initial LoadCursorW fails, fn main propagates
the error with ?, so the run exits with a failing exit code — contradicting
"no execution path of the entry point yields a failing exit code". -/
theorem c9_exit_code_counterexample :
    main { loadCursorOk := false, createWindowOk := true,
           msgs := [LoopMsg.quit] } = some false := by decide

/-- C9 (amended): whenever the setup calls (cursor load and window creation)
succeed and a quit message reaches the queue, main exits with the success
code; the failing exit paths are exactly those where cursor load or window
creation fails before the loop starts. -/
theorem c9_exit_code_amended (e : MainEnv)
    (h1 : e.loadCursorOk = true) (h2 : e.createWindowOk = true)
    (h3 : LoopMsg.quit ∈ e.msgs) :
    main e = some true ∧
    ∀ e2 : MainEnv, (e2.loadCursorOk = false ∨ e2.createWindowOk = false) →
      main e2 = some false := by
  constructor
  · have hs := message_loop_isSome_of_mem e.msgs h3
    rcases Option.isSome_iff_exists.mp hs with ⟨l, hl⟩
    simp [main, h1, h2, hl]
  · intro e2 he2
    rcases he2 with h | h
    · simp [main, h]
    · cases hl : e2.loadCursorOk <;> simp [main, h, hl]

/-- Witness for c9_exit_code_amended on a one-message queue. -/
theorem c9_exit_code_amended_witness :
    main { loadCursorOk := true, createWindowOk := true,
           msgs := [LoopMsg.quit] } = some true :=
  (c9_exit_code_amended { loadCursorOk := true, createWindowOk := true,
                          msgs := [LoopMsg.quit] }
    (by decide) (by decide) (by decide)).1

/-- C10: loword keeps exactly the low 16 bits, so the command handler ignores
the high word (the notification code) of wparam entirely: any wparam whose low
word is 43 behaves exactly like wparam = 43 and in particular shows the
dialog, for every value of the high word. -/
theorem c10_high_word_ignored (s : AppState) (text : List Nat) (f : Bool)
    (hi : Nat) :
    (∀ l : Nat, loword l = l % 2 ^ 16) ∧
    command s (hi * 2 ^ 16 + 43) text f = command s 43 text f ∧
    ((command s (hi * 2 ^ 16 + 43) text f).dialog).isSome = true := by
  have h1 : loword ((hi * 2 ^ 16 + 43) % 2 ^ 32) = ID_BUTTON := by
    rw [loword_u32]
    simp only [ID_BUTTON]
    omega
  refine ⟨loword_eq_mod, ?_, ?_⟩
  · rw [command_eq_of_id s (hi * 2 ^ 16 + 43) text f h1,
      command_eq_of_id s 43 text f (by decide)]
  · rw [command_eq_of_id s (hi * 2 ^ 16 + 43) text f h1]
    rfl

end IqCalc
